import Mathlib

/-!
Verification of the selector-addressed RPC dispatch layer of `kuska-ssb`
(`src/api/helper.rs`): the `ApiMethod` registry (forward and reverse selector
lookup) and the `ApiCaller` call layer, including the chunked streaming of
binary blob payloads in `blobs_get_res_send`.

The underlying multiplexed transport (`RpcWriter`) is an external collaborator
of the repository, not part of the verified source; it is modelled from the
spec as a frame-trace recorder with a per-write success oracle.
-/

namespace KuskaSSB

/-- `const MAX_RPC_BODY_LEN: usize = 65536;` (src/api/helper.rs line 12). -/
def MAX_RPC_BODY_LEN : Nat := 65536

/-- Modelled from the spec: call kind of a frame (`RpcType` of the `rpc`
module, not under `src/`); `Async` (one response), `Source` (streamed
responses plus end marker), `Duplex` reserved. -/
inductive RpcType where
  | Async
  | Source
  | Duplex
deriving DecidableEq, Repr

/-- Modelled from the spec: body-encoding tag carried on every frame
(`BodyType` of the `rpc` module, not under `src/`): structured text (JSON),
plain text, or raw binary. -/
inductive BodyType where
  | JSON
  | UTF8
  | Binary
deriving DecidableEq, Repr

/-- Modelled from the spec: correlation id allocated by the transport
(`RequestNo` of the `rpc` module, not under `src/`). -/
abbrev RequestNo := Int

/-- Modelled from the spec: the error surfaced when the underlying transport
cannot serialize or send. -/
inductive TransportError where
  | transportFailure
deriving DecidableEq, Repr

/-- Modelled from the spec: one unit of transmission handed to the transport.
A request frame carries a selector and a call kind; a response frame carries
the correlation id, call kind, body encoding and payload bytes; a stream-end
frame carries only the correlation id.  Payload bytes are modelled as
`List Nat`; serialization of request argument/option values is performed by
the external transport and is out of scope, so request frames record the
selector and call kind only. -/
inductive Frame where
  | request (name : List String) (rpcType : RpcType)
  | response (reqNo : RequestNo) (rpcType : RpcType) (bodyType : BodyType)
      (body : List Nat)
  | streamEof (reqNo : RequestNo)
deriving DecidableEq, Repr

/-- Modelled from the spec: the transport writer.  `frames` is the ordered
trace of frames written so far, `attempts` counts write attempts, `ok n`
says whether the `n`-th write attempt succeeds (failure injection for the
spec's TransportError), and `nextReq` is the transport-owned correlation-id
allocator. -/
structure RpcWriter where
  frames : List Frame
  attempts : Nat
  ok : Nat → Bool
  nextReq : RequestNo

/-- Modelled from the spec:
`send_request(selector, call_kind, args, options) -> CorrelationId`.
On success one request frame is appended to the trace and the freshly
allocated correlation id is returned; on failure nothing is appended. -/
def RpcWriter.send_request (w : RpcWriter) (name : List String)
    (rpcType : RpcType) : Except TransportError RequestNo × RpcWriter :=
  if w.ok w.attempts then
    (Except.ok w.nextReq,
      { w with
        frames := w.frames ++ [Frame.request name rpcType]
        attempts := w.attempts + 1
        nextReq := w.nextReq + (1 : Int) })
  else
    (Except.error TransportError.transportFailure,
      { w with attempts := w.attempts + 1 })

/-- Modelled from the spec:
`send_response(correlation_id, call_kind, body_encoding, payload) -> ()`. -/
def RpcWriter.send_response (w : RpcWriter) (req_no : RequestNo)
    (rpcType : RpcType) (bodyType : BodyType) (body : List Nat) :
    Except TransportError Unit × RpcWriter :=
  if w.ok w.attempts then
    (Except.ok (),
      { w with
        frames := w.frames ++ [Frame.response req_no rpcType bodyType body]
        attempts := w.attempts + 1 })
  else
    (Except.error TransportError.transportFailure,
      { w with attempts := w.attempts + 1 })

/-- Modelled from the spec: `send_stream_end(correlation_id) -> ()`
(`send_stream_eof` in the source). -/
def RpcWriter.send_stream_eof (w : RpcWriter) (req_no : RequestNo) :
    Except TransportError Unit × RpcWriter :=
  if w.ok w.attempts then
    (Except.ok (),
      { w with
        frames := w.frames ++ [Frame.streamEof req_no]
        attempts := w.attempts + 1 })
  else
    (Except.error TransportError.transportFailure,
      { w with attempts := w.attempts + 1 })

/-- `pub enum ApiMethod` (src/api/helper.rs lines 14-32): the closed
catalogue of remote methods. -/
inductive ApiMethod where
  | GetSubset
  | Publish
  | FriendsFollow
  | FriendsBlock
  | FriendsIsFollowing
  | FriendsIsBlocking
  | FriendsHops
  | InviteCreate
  | InviteUse
  | WhoAmI
  | Get
  | CreateHistoryStream
  | CreateFeedStream
  | Latest
  | BlobsGet
  | BlobsCreateWants
deriving DecidableEq, Repr, Fintype

/-- `ApiMethod::selector` (src/api/helper.rs lines 35-55): forward lookup,
method to selector path. -/
def ApiMethod.selector : ApiMethod → List String
  | .GetSubset => ["partialReplication", "getSubset"]
  | .Publish => ["publish"]
  | .FriendsFollow => ["friends", "follow"]
  | .FriendsBlock => ["friends", "block"]
  | .FriendsIsFollowing => ["friends", "isFollowing"]
  | .FriendsIsBlocking => ["friends", "isBlocking"]
  | .FriendsHops => ["friends", "hops"]
  | .InviteCreate => ["invite", "create"]
  | .InviteUse => ["invite", "use"]
  | .WhoAmI => ["whoami"]
  | .Get => ["get"]
  | .CreateHistoryStream => ["createHistoryStream"]
  | .CreateFeedStream => ["createFeedStream"]
  | .Latest => ["latest"]
  | .BlobsGet => ["blobs", "get"]
  | .BlobsCreateWants => ["blobs", "createWants"]

/-- `ApiMethod::from_selector` (src/api/helper.rs lines 56-77): reverse
lookup, selector path to method, `none` when no pattern matches.  The Rust
`match` over literal slice patterns is first-match-wins sequential equality
testing, written here as the equivalent chain of equality tests. -/
def ApiMethod.from_selector (s : List String) : Option ApiMethod :=
  if s = ["partialReplication", "getSubset"] then some .GetSubset
  else if s = ["publish"] then some .Publish
  else if s = ["friends", "follow"] then some .FriendsFollow
  else if s = ["friends", "block"] then some .FriendsBlock
  else if s = ["friends", "isFollowing"] then some .FriendsIsFollowing
  else if s = ["friends", "isBlocking"] then some .FriendsIsBlocking
  else if s = ["friends", "hops"] then some .FriendsHops
  else if s = ["invite", "create"] then some .InviteCreate
  else if s = ["invite", "use"] then some .InviteUse
  else if s = ["whoami"] then some .WhoAmI
  else if s = ["get"] then some .Get
  else if s = ["createHistoryStream"] then some .CreateHistoryStream
  else if s = ["createFeedStream"] then some .CreateFeedStream
  else if s = ["latest"] then some .Latest
  else if s = ["blobs", "get"] then some .BlobsGet
  else if s = ["blobs", "createWants"] then some .BlobsCreateWants
  else none

/-- Modelled from the spec: argument data-transfer objects (`api::dto`, not
under `src/`).  Their serialization format is out of scope; only the fields
set by the call layer are kept. -/
structure SubsetQuery

structure SubsetQueryOptions

structure TypedMessage

structure FriendsFollowOpts where
  state : Bool

structure FriendsIsFollowingOpts where
  source : String
  dest : String

structure FriendsIsBlockingOpts where
  source : String
  dest : String

structure FriendsHopsOpts

structure InviteCreateOpts where
  uses : Int

structure CreateHistoryStreamIn

structure CreateStreamIn

structure BlobsGetIn

structure Message

/-- `pub struct ApiCaller` (src/api/helper.rs lines 84-86): wraps the
transport writer. -/
structure ApiCaller where
  rpc : RpcWriter

namespace ApiCaller

/-- `ApiCaller::new` (src/api/helper.rs lines 89-91). -/
def new (rpc : RpcWriter) : ApiCaller := ⟨rpc⟩

/-- `ApiCaller::getsubset_req_send` (src/api/helper.rs lines 98-113):
send `["partialReplication", "getSubset"]` request with `RpcType::Source`. -/
def getsubset_req_send (c : ApiCaller) (query : SubsetQuery)
    (opts : Option SubsetQueryOptions) :
    Except TransportError RequestNo × ApiCaller :=
  let (r, w) := c.rpc.send_request ApiMethod.GetSubset.selector RpcType.Source
  (r, ⟨w⟩)

/-- `ApiCaller::publish_req_send` (src/api/helper.rs lines 116-128):
send `["publish"]` request with `RpcType::Async`. -/
def publish_req_send (c : ApiCaller) (msg : TypedMessage) :
    Except TransportError RequestNo × ApiCaller :=
  let (r, w) := c.rpc.send_request ApiMethod.Publish.selector RpcType.Async
  (r, ⟨w⟩)

/-- `ApiCaller::publish_res_send` (src/api/helper.rs lines 131-136). -/
def publish_res_send (c : ApiCaller) (req_no : RequestNo)
    (msg_ref : List Nat) : Except TransportError Unit × ApiCaller :=
  let (r, w) := c.rpc.send_response req_no RpcType.Async BodyType.JSON msg_ref
  (r, ⟨w⟩)

/-- `ApiCaller::friends_block_req_send` (src/api/helper.rs lines 139-152). -/
def friends_block_req_send (c : ApiCaller) :
    Except TransportError RequestNo × ApiCaller :=
  let (r, w) := c.rpc.send_request ApiMethod.FriendsBlock.selector RpcType.Async
  (r, ⟨w⟩)

/-- `ApiCaller::friends_isfollowing_req_send`
(src/api/helper.rs lines 155-175). -/
def friends_isfollowing_req_send (c : ApiCaller) (src_id : String)
    (dest_id : String) : Except TransportError RequestNo × ApiCaller :=
  let (r, w) :=
    c.rpc.send_request ApiMethod.FriendsIsFollowing.selector RpcType.Async
  (r, ⟨w⟩)

/-- `ApiCaller::friends_isblocking_req_send`
(src/api/helper.rs lines 178-198). -/
def friends_isblocking_req_send (c : ApiCaller) (src_id : String)
    (dest_id : String) : Except TransportError RequestNo × ApiCaller :=
  let (r, w) :=
    c.rpc.send_request ApiMethod.FriendsIsBlocking.selector RpcType.Async
  (r, ⟨w⟩)

/-- `ApiCaller::friends_follow_req_send` (src/api/helper.rs lines 202-222). -/
def friends_follow_req_send (c : ApiCaller) (ssb_id : String) (state : Bool) :
    Except TransportError RequestNo × ApiCaller :=
  let (r, w) :=
    c.rpc.send_request ApiMethod.FriendsFollow.selector RpcType.Async
  (r, ⟨w⟩)

/-- `ApiCaller::friends_hops_req_send` (src/api/helper.rs lines 225-237). -/
def friends_hops_req_send (c : ApiCaller) (opts : FriendsHopsOpts) :
    Except TransportError RequestNo × ApiCaller :=
  let (r, w) := c.rpc.send_request ApiMethod.FriendsHops.selector RpcType.Source
  (r, ⟨w⟩)

/-- `ApiCaller::invite_create_req_send` (src/api/helper.rs lines 240-258). -/
def invite_create_req_send (c : ApiCaller) (uses : Int) :
    Except TransportError RequestNo × ApiCaller :=
  let (r, w) :=
    c.rpc.send_request ApiMethod.InviteCreate.selector RpcType.Async
  (r, ⟨w⟩)

/-- `ApiCaller::invite_use_req_send` (src/api/helper.rs lines 261-277). -/
def invite_use_req_send (c : ApiCaller) (invite_link : String) :
    Except TransportError RequestNo × ApiCaller :=
  let (r, w) := c.rpc.send_request ApiMethod.InviteUse.selector RpcType.Async
  (r, ⟨w⟩)

/-- `ApiCaller::whoami_req_send` (src/api/helper.rs lines 280-292):
send `["whoami"]` request with `RpcType::Async`. -/
def whoami_req_send (c : ApiCaller) :
    Except TransportError RequestNo × ApiCaller :=
  let (r, w) := c.rpc.send_request ApiMethod.WhoAmI.selector RpcType.Async
  (r, ⟨w⟩)

/-- `ApiCaller::whoami_res_send` (src/api/helper.rs lines 295-301). -/
def whoami_res_send (c : ApiCaller) (req_no : RequestNo) (id : List Nat) :
    Except TransportError Unit × ApiCaller :=
  let (r, w) := c.rpc.send_response req_no RpcType.Async BodyType.JSON id
  (r, ⟨w⟩)

/-- `ApiCaller::get_req_send` (src/api/helper.rs lines 304-315). -/
def get_req_send (c : ApiCaller) (msg_id : String) :
    Except TransportError RequestNo × ApiCaller :=
  let (r, w) := c.rpc.send_request ApiMethod.Get.selector RpcType.Async
  (r, ⟨w⟩)

/-- `ApiCaller::get_res_send` (src/api/helper.rs lines 318-328). -/
def get_res_send (c : ApiCaller) (req_no : RequestNo) (msg : List Nat) :
    Except TransportError Unit × ApiCaller :=
  let (r, w) := c.rpc.send_response req_no RpcType.Async BodyType.JSON msg
  (r, ⟨w⟩)

/-- `ApiCaller::create_history_stream_req_send`
(src/api/helper.rs lines 331-345). -/
def create_history_stream_req_send (c : ApiCaller)
    (args : CreateHistoryStreamIn) :
    Except TransportError RequestNo × ApiCaller :=
  let (r, w) :=
    c.rpc.send_request ApiMethod.CreateHistoryStream.selector RpcType.Source
  (r, ⟨w⟩)

/-- `ApiCaller::create_feed_stream_req_send`
(src/api/helper.rs lines 348-362). -/
def create_feed_stream_req_send (c : ApiCaller) (args : CreateStreamIn) :
    Except TransportError RequestNo × ApiCaller :=
  let (r, w) :=
    c.rpc.send_request ApiMethod.CreateFeedStream.selector RpcType.Source
  (r, ⟨w⟩)

/-- `ApiCaller::latest_req_send` (src/api/helper.rs lines 365-377). -/
def latest_req_send (c : ApiCaller) :
    Except TransportError RequestNo × ApiCaller :=
  let (r, w) := c.rpc.send_request ApiMethod.Latest.selector RpcType.Async
  (r, ⟨w⟩)

/-- `ApiCaller::blobs_get_req_send` (src/api/helper.rs lines 380-391). -/
def blobs_get_req_send (c : ApiCaller) (args : BlobsGetIn) :
    Except TransportError RequestNo × ApiCaller :=
  let (r, w) := c.rpc.send_request ApiMethod.BlobsGet.selector RpcType.Source
  (r, ⟨w⟩)

/-- `ApiCaller::feed_res_send` (src/api/helper.rs lines 394-399). -/
def feed_res_send (c : ApiCaller) (req_no : RequestNo) (feed : List Nat) :
    Except TransportError Unit × ApiCaller :=
  let (r, w) := c.rpc.send_response req_no RpcType.Source BodyType.JSON feed
  (r, ⟨w⟩)

/-- `ApiCaller::blob_create_wants_req_send`
(src/api/helper.rs lines 402-414). -/
def blob_create_wants_req_send (c : ApiCaller) :
    Except TransportError RequestNo × ApiCaller :=
  let (r, w) :=
    c.rpc.send_request ApiMethod.BlobsCreateWants.selector RpcType.Source
  (r, ⟨w⟩)

end ApiCaller

/-- The `while offset < data.len()` loop of `ApiCaller::blobs_get_res_send`
(src/api/helper.rs lines 422-435), with the loop state (`offset`, the
writer) made explicit.  Each iteration sends the byte range
`data[offset..limit]` with `limit = min(data.len(), offset + MAX_RPC_BODY_LEN)`
as a `Source`/`Binary` response frame; a failed send (`?` in the source)
aborts the loop and propagates the error. -/
def blobsLoop (w : RpcWriter) (req_no : RequestNo) (data : List Nat)
    (offset : Nat) : Except TransportError Unit × RpcWriter :=
  if offset < data.length then
    let limit := min data.length (offset + MAX_RPC_BODY_LEN)
    match w.send_response req_no RpcType.Source BodyType.Binary
        ((data.drop offset).take (limit - offset)) with
    | (Except.error e, w') => (Except.error e, w')
    | (Except.ok _, w') => blobsLoop w' req_no data (offset + MAX_RPC_BODY_LEN)
  else
    (Except.ok (), w)
termination_by data.length - offset
decreasing_by simp only [MAX_RPC_BODY_LEN]; omega

/-- `ApiCaller::blobs_get_res_send` (src/api/helper.rs lines 417-438):
run the chunking loop from `offset = 0`, then (on success of every chunk
send) send the end-of-stream marker via `send_stream_eof`. -/
def ApiCaller.blobs_get_res_send (c : ApiCaller) (req_no : RequestNo)
    (data : List Nat) : Except TransportError Unit × ApiCaller :=
  match blobsLoop c.rpc req_no data 0 with
  | (Except.error e, w') => (Except.error e, ⟨w'⟩)
  | (Except.ok _, w') =>
    let (r, w'') := w'.send_stream_eof req_no
    (r, ⟨w''⟩)

/-- The partition of a payload into the successive byte ranges
`data[offset..limit]` visited by the loop of `blobs_get_res_send`:
`MAX_RPC_BODY_LEN`-sized pieces, the final piece holding the remainder. -/
def chunks : List Nat → List (List Nat)
  | [] => []
  | x :: xs =>
    (x :: xs).take MAX_RPC_BODY_LEN :: chunks ((x :: xs).drop MAX_RPC_BODY_LEN)
termination_by l => l.length
decreasing_by
  simp only [List.length_drop, List.length_cons, MAX_RPC_BODY_LEN]; omega

/-- The payloads of the response frames of a trace, in trace order. -/
def dataPayloads (fs : List Frame) : List (List Nat) :=
  fs.filterMap fun f =>
    match f with
    | Frame.response _ _ _ body => some body
    | _ => none

/-- Whether a frame is an end-of-stream marker. -/
def isEofFrame : Frame → Bool
  | Frame.streamEof _ => true
  | _ => false

/-- A transport writer with an empty trace that accepts every write. -/
def wAccept : RpcWriter := ⟨[], 0, fun _ => true, 1⟩

/-- A transport writer with an empty trace that accepts only the first
write: the second write attempt fails. -/
def wFailSecond : RpcWriter := ⟨[], 0, fun n => decide (n = 0), 1⟩

theorem chunks_nil : chunks [] = [] := by rw [chunks]

theorem chunks_cons (l : List Nat) (h : l ≠ []) :
    chunks l = l.take MAX_RPC_BODY_LEN :: chunks (l.drop MAX_RPC_BODY_LEN) := by
  cases l with
  | nil => exact absurd rfl h
  | cons x xs => rw [chunks]

theorem chunks_length (data : List Nat) :
    (chunks data).length =
      (data.length + MAX_RPC_BODY_LEN - 1) / MAX_RPC_BODY_LEN := by
  by_cases h : data = []
  · subst h
    rw [chunks_nil]
    simp only [List.length_nil, MAX_RPC_BODY_LEN]
  · rw [chunks_cons data h, List.length_cons,
      chunks_length (data.drop MAX_RPC_BODY_LEN)]
    have hlen : 0 < data.length := List.length_pos.mpr h
    simp only [List.length_drop, MAX_RPC_BODY_LEN] at *
    omega
termination_by data.length
decreasing_by
  simp only [List.length_drop, MAX_RPC_BODY_LEN]
  have := List.length_pos.mpr h
  omega

theorem chunks_flatten (data : List Nat) : (chunks data).flatten = data := by
  by_cases h : data = []
  · subst h; rw [chunks_nil]; rfl
  · rw [chunks_cons data h, List.flatten_cons,
      chunks_flatten (data.drop MAX_RPC_BODY_LEN), List.take_append_drop]
termination_by data.length
decreasing_by
  simp only [List.length_drop, MAX_RPC_BODY_LEN]
  have := List.length_pos.mpr h
  omega

theorem chunks_mem_length (data : List Nat) (c : List Nat)
    (hc : c ∈ chunks data) :
    1 ≤ c.length ∧ c.length ≤ MAX_RPC_BODY_LEN := by
  by_cases h : data = []
  · subst h; rw [chunks_nil] at hc; simp at hc
  · rw [chunks_cons data h] at hc
    rcases List.mem_cons.mp hc with h' | h'
    · subst h'
      have hlen : 0 < data.length := List.length_pos.mpr h
      simp only [List.length_take, MAX_RPC_BODY_LEN] at *
      omega
    · exact chunks_mem_length (data.drop MAX_RPC_BODY_LEN) c h'
termination_by data.length
decreasing_by
  simp only [List.length_drop, MAX_RPC_BODY_LEN]
  have := List.length_pos.mpr h
  omega

theorem chunks_getD_length (data : List Nat) (i : Nat)
    (hi : i + 1 < (chunks data).length) :
    ((chunks data).getD i []).length = MAX_RPC_BODY_LEN := by
  by_cases h : data = []
  · subst h; rw [chunks_nil] at hi; simp at hi
  · rw [chunks_cons data h] at hi ⊢
    cases i with
    | zero =>
      have hrest : 0 < (chunks (data.drop MAX_RPC_BODY_LEN)).length := by
        simp only [List.length_cons] at hi; omega
      have hrest' : data.drop MAX_RPC_BODY_LEN ≠ [] := by
        intro hc; rw [hc, chunks_nil] at hrest; simp at hrest
      have hlong : MAX_RPC_BODY_LEN < data.length := by
        by_contra hle
        exact hrest' (List.drop_eq_nil_of_le (by omega))
      simp only [List.getD_cons_zero, List.length_take]
      omega
    | succ j =>
      simp only [List.getD_cons_succ]
      exact chunks_getD_length (data.drop MAX_RPC_BODY_LEN) j
        (by simp only [List.length_cons] at hi; omega)
termination_by data.length
decreasing_by
  simp only [List.length_drop, MAX_RPC_BODY_LEN]
  have := List.length_pos.mpr h
  omega

theorem drop_ne_nil_of_lt (data : List Nat) (offset : Nat)
    (hlt : offset < data.length) : data.drop offset ≠ [] := by
  intro hc
  have := congrArg List.length hc
  simp only [List.length_drop, List.length_nil] at this
  omega

theorem take_limit_eq (data : List Nat) (offset : Nat) :
    (data.drop offset).take
        (min data.length (offset + MAX_RPC_BODY_LEN) - offset) =
      (data.drop offset).take MAX_RPC_BODY_LEN := by
  rw [List.take_eq_take]
  simp only [List.length_drop]
  omega

theorem drop_drop_chunk (data : List Nat) (offset : Nat) :
    (data.drop offset).drop MAX_RPC_BODY_LEN =
      data.drop (offset + MAX_RPC_BODY_LEN) := by
  rw [List.drop_drop, Nat.add_comm]

/-- If the transport accepts the next `(chunks (data.drop offset)).length`
writes, the loop of `blobs_get_res_send` sends exactly the chunks of the
remaining payload, in order, and succeeds. -/
theorem blobsLoop_ok (w : RpcWriter) (req_no : RequestNo) (data : List Nat)
    (offset : Nat)
    (hok : ∀ j, j < (chunks (data.drop offset)).length →
      w.ok (w.attempts + j) = true) :
    blobsLoop w req_no data offset =
      (Except.ok (),
        { w with
          frames := w.frames ++ (chunks (data.drop offset)).map
            (Frame.response req_no RpcType.Source BodyType.Binary),
          attempts := w.attempts + (chunks (data.drop offset)).length }) := by
  rw [blobsLoop]
  by_cases hlt : offset < data.length
  · have hne := drop_ne_nil_of_lt data offset hlt
    have hcons := chunks_cons (data.drop offset) hne
    have h0 : w.ok w.attempts = true := by
      have := hok 0 (by rw [hcons]; simp)
      simpa using this
    have hok' : ∀ j,
        j < (chunks (data.drop (offset + MAX_RPC_BODY_LEN))).length →
        w.ok (w.attempts + 1 + j) = true := by
      intro j hj
      have := hok (j + 1) (by
        rw [hcons, List.length_cons, drop_drop_chunk]; omega)
      simpa [Nat.add_assoc, Nat.add_comm 1 j] using this
    have hrec := blobsLoop_ok
      { w with
        frames := w.frames ++ [Frame.response req_no RpcType.Source
          BodyType.Binary ((data.drop offset).take MAX_RPC_BODY_LEN)],
        attempts := w.attempts + 1 }
      req_no data (offset + MAX_RPC_BODY_LEN) (by simpa using hok')
    simp only [if_pos hlt, take_limit_eq, RpcWriter.send_response, h0,
      if_true]
    rw [hrec]
    rw [hcons]
    simp only [List.map_cons, List.length_cons, Prod.mk.injEq,
      RpcWriter.mk.injEq, drop_drop_chunk]
    and_intros <;> first
      | trivial
      | omega
      | simp [List.append_assoc]
  · have hdrop : data.drop offset = [] :=
      List.drop_eq_nil_of_le (by omega)
    simp only [if_neg hlt, hdrop, chunks_nil, List.map_nil, List.length_nil,
      List.append_nil, Nat.add_zero]
termination_by data.length - offset
decreasing_by simp only [MAX_RPC_BODY_LEN]; omega

/-- If the transport accepts the next `k` writes and rejects the one after,
and more than `k` chunks remain, the loop of `blobs_get_res_send` sends
exactly the first `k` remaining chunks, then stops and propagates the
transport error: the `?` on the failed `send_response` aborts the loop, so
no further data chunks are written. -/
theorem blobsLoop_fail (w : RpcWriter) (req_no : RequestNo) (data : List Nat)
    (offset : Nat) (k : Nat)
    (hk : w.ok (w.attempts + k) = false)
    (hbefore : ∀ j, j < k → w.ok (w.attempts + j) = true)
    (hkc : k < (chunks (data.drop offset)).length) :
    blobsLoop w req_no data offset =
      (Except.error TransportError.transportFailure,
        { w with
          frames := w.frames ++ ((chunks (data.drop offset)).take k).map
            (Frame.response req_no RpcType.Source BodyType.Binary),
          attempts := w.attempts + k + 1 }) := by
  have hne : data.drop offset ≠ [] := by
    intro hc
    rw [hc, chunks_nil] at hkc
    simp at hkc
  have hofflt : offset < data.length := by
    by_contra hge
    exact hne (List.drop_eq_nil_of_le (by omega))
  have hcons := chunks_cons (data.drop offset) hne
  rw [blobsLoop]
  cases k with
  | zero =>
    have h0 : w.ok w.attempts = false := by simpa using hk
    simp only [if_pos hofflt, take_limit_eq, RpcWriter.send_response, h0,
      Bool.false_eq_true, if_false, List.take_zero, List.map_nil,
      List.append_nil, Nat.add_zero]
  | succ j =>
    have h0 : w.ok w.attempts = true := by
      simpa using hbefore 0 (by omega)
    have hk' : w.ok (w.attempts + 1 + j) = false := by
      have := hk
      simpa [Nat.add_assoc, Nat.add_comm 1 j] using this
    have hbefore' : ∀ i, i < j → w.ok (w.attempts + 1 + i) = true := by
      intro i hi
      have := hbefore (i + 1) (by omega)
      simpa [Nat.add_assoc, Nat.add_comm 1 i] using this
    have hkc' : j < (chunks (data.drop (offset + MAX_RPC_BODY_LEN))).length := by
      rw [← drop_drop_chunk]
      rw [hcons, List.length_cons] at hkc
      omega
    have hrec := blobsLoop_fail
      { w with
        frames := w.frames ++ [Frame.response req_no RpcType.Source
          BodyType.Binary ((data.drop offset).take MAX_RPC_BODY_LEN)],
        attempts := w.attempts + 1 }
      req_no data (offset + MAX_RPC_BODY_LEN) j (by simpa using hk')
      (by simpa using hbefore') hkc'
    simp only [if_pos hofflt, take_limit_eq, RpcWriter.send_response, h0,
      if_true]
    rw [hrec]
    rw [hcons]
    simp only [List.take_succ_cons, List.map_cons, Prod.mk.injEq,
      RpcWriter.mk.injEq, drop_drop_chunk]
    and_intros <;> first
      | trivial
      | omega
      | simp [List.append_assoc]
termination_by data.length - offset
decreasing_by simp only [MAX_RPC_BODY_LEN]; omega

theorem from_selector_selector (m : ApiMethod) :
    ApiMethod.from_selector m.selector = some m := by
  cases m <;> rfl

set_option maxHeartbeats 1000000 in
theorem from_selector_sound (s : List String) (m : ApiMethod)
    (h : ApiMethod.from_selector s = some m) : m.selector = s := by
  unfold ApiMethod.from_selector at h
  by_cases h1 : s = ["partialReplication", "getSubset"]
  · rw [if_pos h1] at h
    cases Option.some.inj h
    subst_vars
    rfl
  rw [if_neg h1] at h
  by_cases h2 : s = ["publish"]
  · rw [if_pos h2] at h
    cases Option.some.inj h
    subst_vars
    rfl
  rw [if_neg h2] at h
  by_cases h3 : s = ["friends", "follow"]
  · rw [if_pos h3] at h
    cases Option.some.inj h
    subst_vars
    rfl
  rw [if_neg h3] at h
  by_cases h4 : s = ["friends", "block"]
  · rw [if_pos h4] at h
    cases Option.some.inj h
    subst_vars
    rfl
  rw [if_neg h4] at h
  by_cases h5 : s = ["friends", "isFollowing"]
  · rw [if_pos h5] at h
    cases Option.some.inj h
    subst_vars
    rfl
  rw [if_neg h5] at h
  by_cases h6 : s = ["friends", "isBlocking"]
  · rw [if_pos h6] at h
    cases Option.some.inj h
    subst_vars
    rfl
  rw [if_neg h6] at h
  by_cases h7 : s = ["friends", "hops"]
  · rw [if_pos h7] at h
    cases Option.some.inj h
    subst_vars
    rfl
  rw [if_neg h7] at h
  by_cases h8 : s = ["invite", "create"]
  · rw [if_pos h8] at h
    cases Option.some.inj h
    subst_vars
    rfl
  rw [if_neg h8] at h
  by_cases h9 : s = ["invite", "use"]
  · rw [if_pos h9] at h
    cases Option.some.inj h
    subst_vars
    rfl
  rw [if_neg h9] at h
  by_cases h10 : s = ["whoami"]
  · rw [if_pos h10] at h
    cases Option.some.inj h
    subst_vars
    rfl
  rw [if_neg h10] at h
  by_cases h11 : s = ["get"]
  · rw [if_pos h11] at h
    cases Option.some.inj h
    subst_vars
    rfl
  rw [if_neg h11] at h
  by_cases h12 : s = ["createHistoryStream"]
  · rw [if_pos h12] at h
    cases Option.some.inj h
    subst_vars
    rfl
  rw [if_neg h12] at h
  by_cases h13 : s = ["createFeedStream"]
  · rw [if_pos h13] at h
    cases Option.some.inj h
    subst_vars
    rfl
  rw [if_neg h13] at h
  by_cases h14 : s = ["latest"]
  · rw [if_pos h14] at h
    cases Option.some.inj h
    subst_vars
    rfl
  rw [if_neg h14] at h
  by_cases h15 : s = ["blobs", "get"]
  · rw [if_pos h15] at h
    cases Option.some.inj h
    subst_vars
    rfl
  rw [if_neg h15] at h
  by_cases h16 : s = ["blobs", "createWants"]
  · rw [if_pos h16] at h
    cases Option.some.inj h
    subst_vars
    rfl
  rw [if_neg h16] at h
  exact Option.noConfusion h

theorem dataPayloads_append (fs gs : List Frame) :
    dataPayloads (fs ++ gs) = dataPayloads fs ++ dataPayloads gs := by
  simp [dataPayloads]

theorem dataPayloads_map_response (req_no : RequestNo) (rt : RpcType)
    (bt : BodyType) (cs : List (List Nat)) :
    dataPayloads (cs.map (Frame.response req_no rt bt)) = cs := by
  induction cs with
  | nil => rfl
  | cons c cs ih => simp [dataPayloads] at ih ⊢; exact ih

theorem dataPayloads_eof (req_no : RequestNo) :
    dataPayloads [Frame.streamEof req_no] = [] := rfl

/-- When the transport accepts every write, `blobs_get_res_send` sends the
chunks of `data` in order followed by the single end-of-stream marker, and
succeeds. -/
theorem blobs_get_res_send_ok (w : RpcWriter) (req_no : RequestNo)
    (data : List Nat) (hok : ∀ n, w.ok n = true) :
    ApiCaller.blobs_get_res_send ⟨w⟩ req_no data =
      (Except.ok (),
        ⟨{ w with
           frames := w.frames ++ (chunks data).map
               (Frame.response req_no RpcType.Source BodyType.Binary)
             ++ [Frame.streamEof req_no],
           attempts := w.attempts + (chunks data).length + 1 }⟩) := by
  have hloop := blobsLoop_ok w req_no data 0 (fun j _ => hok _)
  rw [ApiCaller.blobs_get_res_send]
  simp only [List.drop_zero] at hloop
  rw [hloop]
  simp only [RpcWriter.send_stream_eof, hok, if_true]

theorem filter_eof_map_response (req_no : RequestNo) (rt : RpcType)
    (bt : BodyType) (cs : List (List Nat)) :
    (cs.map (Frame.response req_no rt bt)).filter isEofFrame = [] := by
  induction cs with
  | nil => rfl
  | cons c cs ih =>
    simp only [List.map_cons, List.filter_cons, isEofFrame]
    exact ih

/-- Whatever the transport does, the data payloads sent by
`blobs_get_res_send` are an initial prefix of the chunk partition of the
payload. -/
theorem blobs_trace_chunk_front (w : RpcWriter) (req_no : RequestNo)
    (data : List Nat) :
    ∃ k, k ≤ (chunks data).length ∧
      dataPayloads
          (ApiCaller.blobs_get_res_send ⟨w⟩ req_no data).2.rpc.frames
        = dataPayloads w.frames ++ (chunks data).take k := by
  by_cases hall : ∀ j, j < (chunks data).length → w.ok (w.attempts + j) = true
  · refine ⟨(chunks data).length, le_refl _, ?_⟩
    have hloop := blobsLoop_ok w req_no data 0
      (by simpa using hall)
    simp only [List.drop_zero] at hloop
    rw [ApiCaller.blobs_get_res_send, hloop]
    by_cases heof :
        w.ok (w.attempts + (chunks data).length) = true
    · simp only [RpcWriter.send_stream_eof, heof, if_true]
      rw [List.take_length]
      simp [dataPayloads_append, dataPayloads_map_response, dataPayloads_eof]
    · have heof' : w.ok (w.attempts + (chunks data).length) = false := by
        simpa using heof
      simp only [RpcWriter.send_stream_eof, heof', Bool.false_eq_true,
        if_false]
      rw [List.take_length]
      simp [dataPayloads_append, dataPayloads_map_response, dataPayloads_eof]
  · push_neg at hall
    obtain ⟨j, hjlt, hjfail⟩ := hall
    have hjfail' : w.ok (w.attempts + j) = false := by simpa using hjfail
    have hex : ∃ i, w.ok (w.attempts + i) = false := ⟨j, hjfail'⟩
    set k := Nat.find hex with hkdef
    have hkfail : w.ok (w.attempts + k) = false := Nat.find_spec hex
    have hkmin : ∀ i, i < k → w.ok (w.attempts + i) = true := by
      intro i hi
      have := Nat.find_min hex hi
      simpa using this
    have hklt : k < (chunks data).length :=
      lt_of_le_of_lt (Nat.find_min' hex hjfail') hjlt
    have hfail := blobsLoop_fail w req_no data 0 k hkfail hkmin
      (by simpa using hklt)
    simp only [List.drop_zero] at hfail
    refine ⟨k, le_of_lt hklt, ?_⟩
    rw [ApiCaller.blobs_get_res_send, hfail]
    simp only [dataPayloads_append, dataPayloads_map_response]

theorem dataPayloads_nil : dataPayloads [] = [] := rfl

/-- C1: for every method `M` in the closed `ApiMethod` enumeration,
resolving `M`'s selector back through the reverse lookup yields exactly `M`:
`from_selector (selector M) = some M`. -/
theorem selector_roundtrip (m : ApiMethod) :
    ApiMethod.from_selector m.selector = some m :=
  from_selector_selector m

/-- C2: with the fixed maximum frame size `MAX_RPC_BODY_LEN = 65536` and a
transport accepting every write, `blobs_get_res_send` partitions the payload
of length `L` into exactly `ceil(L / M)` data chunks when `L > 0` and `0`
chunks when `L = 0`; every chunk except possibly the last has length exactly
`M`, the last has length in `[1, M]`, and concatenating the chunk payloads
in send order reproduces the original payload byte for byte. -/
theorem blobs_chunking_correct (w : RpcWriter) (req_no : RequestNo)
    (data : List Nat) (hok : ∀ n, w.ok n = true) (hfr : w.frames = []) :
    (0 < data.length →
      (dataPayloads
          (ApiCaller.blobs_get_res_send ⟨w⟩ req_no data).2.rpc.frames).length
        = (data.length + MAX_RPC_BODY_LEN - 1) / MAX_RPC_BODY_LEN)
    ∧ (data.length = 0 →
      (dataPayloads
          (ApiCaller.blobs_get_res_send ⟨w⟩ req_no data).2.rpc.frames).length
        = 0)
    ∧ (∀ i, i + 1 <
        (dataPayloads
          (ApiCaller.blobs_get_res_send ⟨w⟩ req_no
            data).2.rpc.frames).length →
      ((dataPayloads
          (ApiCaller.blobs_get_res_send ⟨w⟩ req_no data).2.rpc.frames).getD i
          []).length = MAX_RPC_BODY_LEN)
    ∧ (∀ c ∈ dataPayloads
          (ApiCaller.blobs_get_res_send ⟨w⟩ req_no data).2.rpc.frames,
        1 ≤ c.length ∧ c.length ≤ MAX_RPC_BODY_LEN)
    ∧ (dataPayloads
          (ApiCaller.blobs_get_res_send ⟨w⟩ req_no data).2.rpc.frames).flatten
        = data := by
  have hsent : dataPayloads
      (ApiCaller.blobs_get_res_send ⟨w⟩ req_no data).2.rpc.frames
      = chunks data := by
    rw [blobs_get_res_send_ok w req_no data hok, hfr]
    simp only [List.nil_append]
    simp only [dataPayloads_append, dataPayloads_map_response,
      dataPayloads_eof, dataPayloads_nil, List.append_nil, List.nil_append]
  rw [hsent]
  refine ⟨fun _ => chunks_length data, ?_, chunks_getD_length data,
    chunks_mem_length data, chunks_flatten data⟩
  intro h0
  rw [List.length_eq_zero.mp h0, chunks_nil]
  rfl

/-- Witness for C2: a one-byte payload through an all-accepting transport is
reassembled exactly. -/
theorem blobs_chunking_correct_witness :
    (dataPayloads
        (ApiCaller.blobs_get_res_send ⟨wAccept⟩ 1 [0]).2.rpc.frames).flatten
      = [0] :=
  (blobs_chunking_correct wAccept 1 [0] (fun _ => rfl) rfl).2.2.2.2

/-- C3: for every payload (the zero-length payload included), if every
underlying send succeeds then `blobs_get_res_send` sends exactly one
end-of-stream marker, and that marker is the last frame sent for the
correlation id; a zero-length payload yields 0 data chunks followed by the
end marker alone. -/
theorem blobs_stream_end_marker (w : RpcWriter) (req_no : RequestNo)
    (data : List Nat) (hok : ∀ n, w.ok n = true) (hfr : w.frames = []) :
    (ApiCaller.blobs_get_res_send ⟨w⟩ req_no data).1 = Except.ok ()
    ∧ ((ApiCaller.blobs_get_res_send ⟨w⟩ req_no data).2.rpc.frames.filter
        isEofFrame).length = 1
    ∧ ((ApiCaller.blobs_get_res_send ⟨w⟩ req_no data).2.rpc.frames).getLast?
        = some (Frame.streamEof req_no)
    ∧ (data = [] →
      (ApiCaller.blobs_get_res_send ⟨w⟩ req_no data).2.rpc.frames
        = [Frame.streamEof req_no]) := by
  rw [blobs_get_res_send_ok w req_no data hok, hfr]
  refine ⟨rfl, ?_, ?_, ?_⟩
  · simp only [List.nil_append, List.filter_append, filter_eof_map_response]
    rfl
  · simp only [List.nil_append]
    exact List.getLast?_concat _
  · intro h0
    rw [h0, chunks_nil]
    rfl

/-- Witness for C3: the zero-length payload sends 0 data chunks and exactly
the end marker. -/
theorem blobs_stream_end_marker_witness :
    (ApiCaller.blobs_get_res_send ⟨wAccept⟩ 2 []).2.rpc.frames
      = [Frame.streamEof 2] :=
  (blobs_stream_end_marker wAccept 2 [] (fun _ => rfl) rfl).2.2.2 rfl

/-- C4: if an underlying `send_response` call fails partway through a
chunked streaming send — the transport accepts the first `k` writes and
rejects the next, with at least one chunk still unwritten — then
`blobs_get_res_send` sends no further data chunks and no end-of-stream
marker, and the `TransportError` propagates to the caller: the trace holds
exactly the first `k` chunks and nothing else. -/
theorem blobs_midstream_failure (w : RpcWriter) (req_no : RequestNo)
    (data : List Nat) (k : Nat) (hfr : w.frames = []) (hat : w.attempts = 0)
    (hk : w.ok k = false) (hbefore : ∀ j, j < k → w.ok j = true)
    (hkc : k < (chunks data).length) :
    (ApiCaller.blobs_get_res_send ⟨w⟩ req_no data).1
      = Except.error TransportError.transportFailure
    ∧ dataPayloads
        (ApiCaller.blobs_get_res_send ⟨w⟩ req_no data).2.rpc.frames
      = (chunks data).take k
    ∧ (dataPayloads
        (ApiCaller.blobs_get_res_send ⟨w⟩ req_no data).2.rpc.frames).length
      = k
    ∧ (ApiCaller.blobs_get_res_send ⟨w⟩ req_no data).2.rpc.frames.filter
        isEofFrame = [] := by
  have hk' : w.ok (w.attempts + k) = false := by
    rw [hat]
    simpa using hk
  have hbefore' : ∀ j, j < k → w.ok (w.attempts + j) = true := by
    intro j hj
    rw [hat]
    simpa using hbefore j hj
  have hfail := blobsLoop_fail w req_no data 0 k hk' hbefore'
    (by simpa using hkc)
  simp only [List.drop_zero] at hfail
  have hres : ApiCaller.blobs_get_res_send ⟨w⟩ req_no data
      = (Except.error TransportError.transportFailure,
         ⟨{ w with
            frames := w.frames ++ ((chunks data).take k).map
              (Frame.response req_no RpcType.Source BodyType.Binary),
            attempts := w.attempts + k + 1 }⟩) := by
    rw [ApiCaller.blobs_get_res_send, hfail]
  rw [hres]
  have hsent : dataPayloads (w.frames ++ ((chunks data).take k).map
      (Frame.response req_no RpcType.Source BodyType.Binary))
      = (chunks data).take k := by
    rw [hfr, List.nil_append, dataPayloads_map_response]
  refine ⟨rfl, hsent, ?_, ?_⟩
  · rw [show dataPayloads ((Except.error TransportError.transportFailure,
        (⟨{ w with
            frames := w.frames ++ ((chunks data).take k).map
              (Frame.response req_no RpcType.Source BodyType.Binary),
            attempts := w.attempts + k + 1 }⟩ : ApiCaller)).2.rpc.frames)
        = (chunks data).take k from hsent]
    rw [List.length_take]
    omega
  · show (w.frames ++ ((chunks data).take k).map
      (Frame.response req_no RpcType.Source BodyType.Binary)).filter
        isEofFrame = []
    rw [hfr, List.nil_append, filter_eof_map_response]

/-- Witness for C4: a three-chunk payload (131073 bytes) through a transport
that rejects the second write results in the error propagating, exactly 1
chunk having been sent, and no end-of-stream marker. -/
theorem blobs_midstream_failure_witness :
    (ApiCaller.blobs_get_res_send ⟨wFailSecond⟩ 3
        (List.replicate 131073 0)).1
      = Except.error TransportError.transportFailure
    ∧ dataPayloads
        (ApiCaller.blobs_get_res_send ⟨wFailSecond⟩ 3
          (List.replicate 131073 0)).2.rpc.frames
      = (chunks (List.replicate 131073 0)).take 1
    ∧ (dataPayloads
        (ApiCaller.blobs_get_res_send ⟨wFailSecond⟩ 3
          (List.replicate 131073 0)).2.rpc.frames).length
      = 1
    ∧ (ApiCaller.blobs_get_res_send ⟨wFailSecond⟩ 3
        (List.replicate 131073 0)).2.rpc.frames.filter isEofFrame = [] :=
  blobs_midstream_failure wFailSecond 3 (List.replicate 131073 0) 1 rfl rfl
    rfl (by decide)
    (by rw [chunks_length, List.length_replicate]; decide)

/-- C5: for every selector that is not the exact selector of any registered
method — strict prefixes and extensions of registered selectors included —
`from_selector` returns `none`: matching is exact, ordered, case-sensitive
segment equality with no prefix matching and no wildcards. -/
theorem from_selector_unmatched (s : List String)
    (h : ∀ m : ApiMethod, m.selector ≠ s) :
    ApiMethod.from_selector s = none := by
  cases hfs : ApiMethod.from_selector s with
  | none => rfl
  | some m => exact absurd (from_selector_sound s m hfs) (h m)

/-- Witness for C5: `["friends"]`, a strict prefix of registered selectors,
matches no method. -/
theorem from_selector_unmatched_witness :
    ApiMethod.from_selector ["friends"] = none :=
  from_selector_unmatched ["friends"] (by decide)

/-- C6: the selector mapping is a bijection over the closed method set:
`selector` is total (a Lean function), no two distinct methods share a
selector, and every selector in the image maps back to exactly the one
method it came from. -/
theorem selector_bijection :
    (∀ m₁ m₂ : ApiMethod, m₁.selector = m₂.selector → m₁ = m₂)
    ∧ (∀ m : ApiMethod, ApiMethod.from_selector m.selector = some m)
    ∧ (∀ (s : List String) (m : ApiMethod),
        ApiMethod.from_selector s = some m → m.selector = s) := by
  refine ⟨?_, from_selector_selector, from_selector_sound⟩
  intro m₁ m₂ h
  have h1 := from_selector_selector m₁
  rw [h, from_selector_selector m₂] at h1
  exact (Option.some.inj h1).symm

/-- Witness for C6: instances of all three conjuncts at concrete inputs. -/
theorem selector_bijection_witness :
    ApiMethod.FriendsBlock = ApiMethod.FriendsBlock
    ∧ ApiMethod.from_selector ApiMethod.FriendsBlock.selector
      = some ApiMethod.FriendsBlock
    ∧ ApiMethod.FriendsBlock.selector = ["friends", "block"] :=
  ⟨selector_bijection.1 ApiMethod.FriendsBlock ApiMethod.FriendsBlock rfl,
   selector_bijection.2.1 ApiMethod.FriendsBlock,
   selector_bijection.2.2 ["friends", "block"] ApiMethod.FriendsBlock
     (by decide)⟩

/-- C7: every request-sending operation of the call layer writes exactly one
request frame to the transport per call (requests are never chunked) and, on
success, returns the correlation id allocated by the transport. -/
theorem req_send_single_frame (w : RpcWriter)
    (hok : w.ok w.attempts = true) :
    (∀ (query : SubsetQuery) (opts : Option SubsetQueryOptions),
      ApiCaller.getsubset_req_send ⟨w⟩ query opts
        = (Except.ok w.nextReq,
          ⟨{ w with
             frames := w.frames
               ++ [Frame.request ApiMethod.GetSubset.selector RpcType.Source],
             attempts := w.attempts + 1,
             nextReq := w.nextReq + 1 }⟩))
    ∧ (∀ (msg : TypedMessage),
      ApiCaller.publish_req_send ⟨w⟩ msg
        = (Except.ok w.nextReq,
          ⟨{ w with
             frames := w.frames
               ++ [Frame.request ApiMethod.Publish.selector RpcType.Async],
             attempts := w.attempts + 1,
             nextReq := w.nextReq + 1 }⟩))
    ∧ (ApiCaller.friends_block_req_send ⟨w⟩
        = (Except.ok w.nextReq,
          ⟨{ w with
             frames := w.frames
               ++ [Frame.request ApiMethod.FriendsBlock.selector RpcType.Async],
             attempts := w.attempts + 1,
             nextReq := w.nextReq + 1 }⟩))
    ∧ (∀ (src_id dest_id : String),
      ApiCaller.friends_isfollowing_req_send ⟨w⟩ src_id dest_id
        = (Except.ok w.nextReq,
          ⟨{ w with
             frames := w.frames
               ++ [Frame.request ApiMethod.FriendsIsFollowing.selector RpcType.Async],
             attempts := w.attempts + 1,
             nextReq := w.nextReq + 1 }⟩))
    ∧ (∀ (src_id dest_id : String),
      ApiCaller.friends_isblocking_req_send ⟨w⟩ src_id dest_id
        = (Except.ok w.nextReq,
          ⟨{ w with
             frames := w.frames
               ++ [Frame.request ApiMethod.FriendsIsBlocking.selector RpcType.Async],
             attempts := w.attempts + 1,
             nextReq := w.nextReq + 1 }⟩))
    ∧ (∀ (ssb_id : String) (state : Bool),
      ApiCaller.friends_follow_req_send ⟨w⟩ ssb_id state
        = (Except.ok w.nextReq,
          ⟨{ w with
             frames := w.frames
               ++ [Frame.request ApiMethod.FriendsFollow.selector RpcType.Async],
             attempts := w.attempts + 1,
             nextReq := w.nextReq + 1 }⟩))
    ∧ (∀ (opts : FriendsHopsOpts),
      ApiCaller.friends_hops_req_send ⟨w⟩ opts
        = (Except.ok w.nextReq,
          ⟨{ w with
             frames := w.frames
               ++ [Frame.request ApiMethod.FriendsHops.selector RpcType.Source],
             attempts := w.attempts + 1,
             nextReq := w.nextReq + 1 }⟩))
    ∧ (∀ (uses : Int),
      ApiCaller.invite_create_req_send ⟨w⟩ uses
        = (Except.ok w.nextReq,
          ⟨{ w with
             frames := w.frames
               ++ [Frame.request ApiMethod.InviteCreate.selector RpcType.Async],
             attempts := w.attempts + 1,
             nextReq := w.nextReq + 1 }⟩))
    ∧ (∀ (invite_link : String),
      ApiCaller.invite_use_req_send ⟨w⟩ invite_link
        = (Except.ok w.nextReq,
          ⟨{ w with
             frames := w.frames
               ++ [Frame.request ApiMethod.InviteUse.selector RpcType.Async],
             attempts := w.attempts + 1,
             nextReq := w.nextReq + 1 }⟩))
    ∧ (ApiCaller.whoami_req_send ⟨w⟩
        = (Except.ok w.nextReq,
          ⟨{ w with
             frames := w.frames
               ++ [Frame.request ApiMethod.WhoAmI.selector RpcType.Async],
             attempts := w.attempts + 1,
             nextReq := w.nextReq + 1 }⟩))
    ∧ (∀ (msg_id : String),
      ApiCaller.get_req_send ⟨w⟩ msg_id
        = (Except.ok w.nextReq,
          ⟨{ w with
             frames := w.frames
               ++ [Frame.request ApiMethod.Get.selector RpcType.Async],
             attempts := w.attempts + 1,
             nextReq := w.nextReq + 1 }⟩))
    ∧ (∀ (args : CreateHistoryStreamIn),
      ApiCaller.create_history_stream_req_send ⟨w⟩ args
        = (Except.ok w.nextReq,
          ⟨{ w with
             frames := w.frames
               ++ [Frame.request ApiMethod.CreateHistoryStream.selector RpcType.Source],
             attempts := w.attempts + 1,
             nextReq := w.nextReq + 1 }⟩))
    ∧ (∀ (args : CreateStreamIn),
      ApiCaller.create_feed_stream_req_send ⟨w⟩ args
        = (Except.ok w.nextReq,
          ⟨{ w with
             frames := w.frames
               ++ [Frame.request ApiMethod.CreateFeedStream.selector RpcType.Source],
             attempts := w.attempts + 1,
             nextReq := w.nextReq + 1 }⟩))
    ∧ (ApiCaller.latest_req_send ⟨w⟩
        = (Except.ok w.nextReq,
          ⟨{ w with
             frames := w.frames
               ++ [Frame.request ApiMethod.Latest.selector RpcType.Async],
             attempts := w.attempts + 1,
             nextReq := w.nextReq + 1 }⟩))
    ∧ (∀ (args : BlobsGetIn),
      ApiCaller.blobs_get_req_send ⟨w⟩ args
        = (Except.ok w.nextReq,
          ⟨{ w with
             frames := w.frames
               ++ [Frame.request ApiMethod.BlobsGet.selector RpcType.Source],
             attempts := w.attempts + 1,
             nextReq := w.nextReq + 1 }⟩))
    ∧ (ApiCaller.blob_create_wants_req_send ⟨w⟩
        = (Except.ok w.nextReq,
          ⟨{ w with
             frames := w.frames
               ++ [Frame.request ApiMethod.BlobsCreateWants.selector RpcType.Source],
             attempts := w.attempts + 1,
             nextReq := w.nextReq + 1 }⟩)) := by
  and_intros <;> intros <;>
    simp [ApiCaller.getsubset_req_send, ApiCaller.publish_req_send, ApiCaller.friends_block_req_send, ApiCaller.friends_isfollowing_req_send, ApiCaller.friends_isblocking_req_send, ApiCaller.friends_follow_req_send, ApiCaller.friends_hops_req_send, ApiCaller.invite_create_req_send, ApiCaller.invite_use_req_send, ApiCaller.whoami_req_send, ApiCaller.get_req_send, ApiCaller.create_history_stream_req_send, ApiCaller.create_feed_stream_req_send, ApiCaller.latest_req_send, ApiCaller.blobs_get_req_send, ApiCaller.blob_create_wants_req_send,
      RpcWriter.send_request, hok]

/-- Witness for C7: the `getsubset` request through an all-accepting
transport writes one frame and returns the allocated id. -/
theorem req_send_single_frame_witness :
    ApiCaller.getsubset_req_send ⟨wAccept⟩ SubsetQuery.mk none
      = (Except.ok wAccept.nextReq,
         ⟨{ wAccept with
            frames := wAccept.frames
              ++ [Frame.request ApiMethod.GetSubset.selector RpcType.Source],
            attempts := wAccept.attempts + 1,
            nextReq := wAccept.nextReq + 1 }⟩) :=
  (req_send_single_frame wAccept rfl).1 SubsetQuery.mk none

/-- C8: the declared call kind of each request is fixed per method, not
chosen per invocation: the subset-query request always declares `Source`,
and the publish request always declares `Async`, whatever the arguments. -/
theorem call_kind_fixed_per_method (w : RpcWriter)
    (hok : w.ok w.attempts = true) :
    (∀ (query : SubsetQuery) (opts : Option SubsetQueryOptions),
      (ApiCaller.getsubset_req_send ⟨w⟩ query opts).2.rpc.frames
        = w.frames
          ++ [Frame.request ApiMethod.GetSubset.selector RpcType.Source])
    ∧ (∀ msg : TypedMessage,
      (ApiCaller.publish_req_send ⟨w⟩ msg).2.rpc.frames
        = w.frames
          ++ [Frame.request ApiMethod.Publish.selector RpcType.Async]) := by
  constructor <;> intros <;>
    simp [ApiCaller.getsubset_req_send, ApiCaller.publish_req_send,
      RpcWriter.send_request, hok]

/-- Witness for C8: concrete invocations carry the fixed call kinds. -/
theorem call_kind_fixed_per_method_witness :
    (ApiCaller.getsubset_req_send ⟨wAccept⟩ SubsetQuery.mk none).2.rpc.frames
      = wAccept.frames
        ++ [Frame.request ApiMethod.GetSubset.selector RpcType.Source]
    ∧ (ApiCaller.publish_req_send ⟨wAccept⟩ TypedMessage.mk).2.rpc.frames
      = wAccept.frames
        ++ [Frame.request ApiMethod.Publish.selector RpcType.Async] :=
  ⟨(call_kind_fixed_per_method wAccept rfl).1 SubsetQuery.mk none,
   (call_kind_fixed_per_method wAccept rfl).2 TypedMessage.mk⟩

/-- C9: `FriendsBlock`'s selector is exactly the two-segment path
`["friends", "block"]`, and resolving `["friends", "block"]` through the
reverse lookup yields `FriendsBlock`. -/
theorem friends_block_selector_roundtrip :
    ApiMethod.FriendsBlock.selector = ["friends", "block"]
    ∧ ApiMethod.from_selector ["friends", "block"]
      = some ApiMethod.FriendsBlock :=
  ⟨rfl, by decide⟩

/-- C10: the chunking loop of `blobs_get_res_send` terminates — it is
compiled as a total function, with the measure `data.length - offset`
decreasing because the offset advances by `MAX_RPC_BODY_LEN = 65536 > 0`
every iteration — and, whatever the transport does, the number of
`send_response` iterations that write a data chunk is bounded by
`ceil(len(payload) / 65536)`. -/
theorem blobs_iterations_bounded (w : RpcWriter) (req_no : RequestNo)
    (data : List Nat) (hfr : w.frames = []) :
    (dataPayloads
        (ApiCaller.blobs_get_res_send ⟨w⟩ req_no data).2.rpc.frames).length
      ≤ (data.length + MAX_RPC_BODY_LEN - 1) / MAX_RPC_BODY_LEN := by
  obtain ⟨k, hk, heq⟩ := blobs_trace_chunk_front w req_no data
  rw [heq, hfr, ← chunks_length]
  simp only [dataPayloads_nil, List.nil_append, List.length_take]
  exact min_le_right _ _

/-- Witness for C10: the bound at a concrete one-byte payload. -/
theorem blobs_iterations_bounded_witness :
    (dataPayloads
        (ApiCaller.blobs_get_res_send ⟨wAccept⟩ 4 [0]).2.rpc.frames).length
      ≤ (([0] : List Nat).length + MAX_RPC_BODY_LEN - 1) / MAX_RPC_BODY_LEN :=
  blobs_iterations_bounded wAccept 4 [0] rfl

end KuskaSSB
